import Mathlib

/-!
Shallow embedding of the light-watcher bot (src/main.rs, src/redis.rs).

Instants and time spans are modelled as `Int` milliseconds (the resolution at
which `chrono::Duration` comparisons and the `num_days`/`num_hours`/
`num_minutes`/`num_seconds` accessors of the source operate; Rust integer
division and remainder truncate toward zero, hence `Int.tdiv`/`Int.tmod`).

The Redis store is modelled as two finite maps: timestamp keys to parsed
instants and user ids to approval-flag strings (the source keeps both in one
string keyspace; numeric user-id keys never collide with the two fixed
timestamp keys).  Each Redis operation in the source opens its own connection,
which can fail; every embedded operation therefore takes a `conn : Bool`
connectivity flag and returns `Except Unit _`, mirroring `anyhow::Result`.

`chrono::Utc::now()` is called several times inside one reconciliation or one
handler invocation; the embedding abstracts those calls into a single `now`
parameter per invocation, the usual injectable-clock abstraction.
-/

namespace LightWatcher

/-- Key of the heartbeat timestamp (`POWER_ON_TIME_KEY` in main.rs). -/
def POWER_ON_TIME_KEY : String := "power_on_time"

/-- Key of the power-resumed timestamp (`WAKE_UP_TIME_KEY` in main.rs). -/
def WAKE_UP_TIME_KEY : String := "wake_up_time"

/-- Milliseconds in `chrono::Duration::minutes(1)`. -/
def minuteMs : Int := 60000

/-- `chrono::Duration::num_days`: whole days, truncated toward zero. -/
def num_days (d : Int) : Int := d.tdiv 86400000

/-- `chrono::Duration::num_hours`: whole hours, truncated toward zero. -/
def num_hours (d : Int) : Int := d.tdiv 3600000

/-- `chrono::Duration::num_minutes`: whole minutes, truncated toward zero. -/
def num_minutes (d : Int) : Int := d.tdiv 60000

/-- `chrono::Duration::num_seconds`: whole seconds, truncated toward zero. -/
def num_seconds (d : Int) : Int := d.tdiv 1000

/-- `duration_formatter` from main.rs: appends `"<N> <unit> "` for each of the
day/hour/minute/second components that is strictly positive, in that order. -/
def duration_formatter (duration : Int) : String :=
  let result := ""
  let days := num_days duration
  let result := if days > 0 then result ++ toString days ++ " days " else result
  let hours := (num_hours duration).tmod 24
  let result := if hours > 0 then result ++ toString hours ++ " hours " else result
  let minutes := (num_minutes duration).tmod 60
  let result := if minutes > 0 then result ++ toString minutes ++ " minutes " else result
  let seconds := (num_seconds duration).tmod 60
  let result := if seconds > 0 then result ++ toString seconds ++ " seconds " else result
  result

/-- The four (component value, unit name) pairs of a span, in descending order
of magnitude, as the formatter computes them. -/
def durationComponents (d : Int) : List (Int × String) :=
  [(num_days d, "days"), ((num_hours d).tmod 24, "hours"),
   ((num_minutes d).tmod 60, "minutes"), ((num_seconds d).tmod 60, "seconds")]

/-- Render a list of (value, unit) pairs as the formatter renders components. -/
def renderComponents (l : List (Int × String)) : String :=
  l.foldl (fun acc p => acc ++ toString p.1 ++ " " ++ p.2 ++ " ") ""

/-- Spec-side restatement of the formatter contract, amended to the code: the
components that are kept are exactly the strictly positive ones. -/
def duration_formatter_spec (d : Int) : String :=
  renderComponents ((durationComponents d).filter (fun p => decide (0 < p.1)))

/-- `RedisClient::get` (redis.rs): opening the connection can fail, an absent
key fails the `String` conversion, and the stored RFC-3339 text is parsed to an
instant.  `times` maps a key to its parsed instant when present and parseable. -/
def redisGet (conn : Bool) (times : String → Option Int) (key : String) :
    Except Unit Int :=
  if conn then
    match times key with
    | some t => Except.ok t
    | none => Except.error ()
  else Except.error ()

/-- `RedisClient::set` (redis.rs) for a timestamp key. -/
def redisSet (conn : Bool) (times : String → Option Int) (key : String)
    (value : Int) : Except Unit (String → Option Int) :=
  if conn then
    Except.ok (fun k => if k = key then some value else times k)
  else Except.error ()

/-- `RedisClient::verify_approval` (redis.rs): reads the user's flag as an
`Option<String>` (absent key is `none`, not an error) and compares it with
`"approved"`. -/
def verify_approval (conn : Bool) (flags : Nat → Option String) (u : Nat) :
    Except Unit Bool :=
  if conn then Except.ok (flags u == some "approved")
  else Except.error ()

/-- `RedisClient::manage_user` (redis.rs): unconditional write of the flag. -/
def manage_user (conn : Bool) (flags : Nat → Option String) (u : Nat)
    (value : String) : Except Unit (Nat → Option String) :=
  if conn then Except.ok (fun v => if v = u then some value else flags v)
  else Except.error ()

/-- `RedisClient::approve_user` (redis.rs). -/
def approve_user (conn : Bool) (flags : Nat → Option String) (u : Nat) :
    Except Unit (Nat → Option String) :=
  manage_user conn flags u "approved"

/-- `RedisClient::disapprove_user` (redis.rs). -/
def disapprove_user (conn : Bool) (flags : Nat → Option String) (u : Nat) :
    Except Unit (Nat → Option String) :=
  manage_user conn flags u "disapproved"

/-- The brief-restart report string of `report_power_off_time`. -/
def briefRestartMessage (timeOn : Int) : String :=
  "Less than 1 minute bot outage. Probably updating the bot. The power was on for "
    ++ duration_formatter timeOn ++ "\n"

/-- The genuine-outage report string of `report_power_off_time`. -/
def outageMessage (timeOff timeOn : Int) : String :=
  "The power was off for " ++ duration_formatter timeOff
    ++ ".\nThe power was on for " ++ duration_formatter timeOn ++ "\n"

/-- Result of one startup reconciliation: the chat messages sent, the timestamp
store after the run, whether the run returned `Ok` (the final `redis.set` can
fail), and — as ghost observables — the `time_off` and `time_light_was_on`
values the source computes. -/
structure ReconcileOutcome where
  messages : List String
  newTimes : String → Option Int
  ok : Bool
  timeOff : Int
  timeOn : Int

/-- `report_power_off_time` (main.rs): reads the heartbeat and the wake-up
instants (any failure is replaced by `now` via `unwrap_or_else`), computes
`time_off = now - stored` and `time_light_was_on = (now - wake_up) - time_off`,
then either sends the brief-restart message and leaves the store untouched
(when `time_off` is nonzero and below one minute) or sends the outage message
and overwrites `WAKE_UP_TIME_KEY` with `now`.  `connStored`, `connWake` and
`connSet` are the connectivity of the three Redis round trips, in program
order. -/
def report_power_off_time (connStored connWake connSet : Bool)
    (times : String → Option Int) (now : Int) : ReconcileOutcome :=
  let stored_time := ((redisGet connStored times POWER_ON_TIME_KEY).toOption).getD now
  let wake_up_time := ((redisGet connWake times WAKE_UP_TIME_KEY).toOption).getD now
  let time_until_wake_up := now - wake_up_time
  let time_off := now - stored_time
  let time_light_was_on := time_until_wake_up - time_off
  if time_off ≠ 0 ∧ time_off < minuteMs then
    { messages := [briefRestartMessage time_light_was_on]
      newTimes := times
      ok := true
      timeOff := time_off
      timeOn := time_light_was_on }
  else
    { messages := [outageMessage time_off time_light_was_on]
      newTimes := ((redisSet connSet times WAKE_UP_TIME_KEY now).toOption).getD times
      ok := connSet
      timeOff := time_off
      timeOn := time_light_was_on }

/-- Two reconciliations in succession, the second over the store state the
first one left behind, with all Redis round trips succeeding and no heartbeat
write in between. -/
def reconcileTwice (times : String → Option Int) (now1 now2 : Int) :
    ReconcileOutcome :=
  report_power_off_time true true true
    (report_power_off_time true true true times now1).newTimes now2

/-- The status-command `handler` (main.rs): the permission check propagates a
`verify_approval` failure with `?`; an unapproved non-admin sender gets the
refusal reply; a message older than one minute is dropped; the wake-up instant
is re-read (failure replaced by `now` via `unwrap_or`), and the reply is sent
unless the resulting span is exactly zero.  The result is the reply sent, if
any (`Except.error` models the handler returning `Err`). -/
def handler (connApproval connWake : Bool) (flags : Nat → Option String)
    (times : String → Option Int) (adminId user : Nat) (now msgTime : Int) :
    Except Unit (Option String) :=
  match verify_approval connApproval flags user with
  | Except.error e => Except.error e
  | Except.ok approved =>
    if approved = false ∧ user ≠ adminId then
      Except.ok (some "You are not entitled to use this command")
    else if now - msgTime > minuteMs then
      Except.ok none
    else
      let stored_time := ((redisGet connWake times WAKE_UP_TIME_KEY).toOption).getD now
      let time_off := now - stored_time
      if time_off = 0 then
        Except.ok none
      else
        Except.ok (some ("Light is on for " ++ duration_formatter time_off))

/-! ### Helper lemmas on truncating division -/

/-- Truncating division of a nonpositive dividend by a nonnegative divisor is
nonpositive. -/
lemma tdiv_nonpos_of_nonpos {a b : Int} (ha : a ≤ 0) (hb : 0 ≤ b) :
    a.tdiv b ≤ 0 := by
  have h : 0 ≤ (-a).tdiv b := Int.tdiv_nonneg (by omega) hb
  have h2 : (-a).tdiv b = -(a.tdiv b) := Int.neg_tdiv a b
  omega

/-- Truncating remainder commutes with negation of the dividend. -/
lemma tmod_neg_dividend (a b : Int) : (-a).tmod b = -(a.tmod b) := by
  rw [Int.tmod_def, Int.tmod_def, Int.neg_tdiv]
  ring

/-- Truncating remainder of a nonpositive dividend by a nonnegative divisor is
nonpositive. -/
lemma tmod_nonpos_of_nonpos {a b : Int} (ha : a ≤ 0) (_hb : 0 ≤ b) :
    a.tmod b ≤ 0 := by
  have h : 0 ≤ (-a).tmod b := Int.tmod_nonneg b (by omega)
  have h2 := tmod_neg_dividend a b
  omega

/-! ### C4: the formatter keeps exactly the strictly positive components -/

/-- C4 counterexample: at the negative span −90000 ms (−1 min −30 s) the
minute and second components are non-zero (−1 and −30), yet the formatter
emits the empty string, so it does not list exactly the non-zero components. -/
theorem c4_formatter_counterexample :
    duration_formatter (-90000) = ""
    ∧ (durationComponents (-90000)).filter (fun p => decide (p.1 ≠ 0))
        = [(-1, "minutes"), (-30, "seconds")] := by
  constructor
  · decide
  · decide

/-- C4 amended: the formatter is a pure function of the span listing exactly
the strictly positive components among days, hours, minutes and seconds in
descending order of magnitude, each rendered as the value, a space, the unit
and a trailing space; zero (and negative) components are omitted; a zero span
yields the empty string, 90 minutes yields "1 hours 30 minutes " and 25 hours
yields "1 days 1 hours ". -/
theorem c4_formatter_positive_components :
    (∀ d : Int, duration_formatter d = duration_formatter_spec d)
    ∧ duration_formatter 0 = ""
    ∧ duration_formatter 5400000 = "1 hours 30 minutes "
    ∧ duration_formatter 90000000 = "1 days 1 hours " := by
  refine ⟨fun d => ?_, by decide, by decide, by decide⟩
  unfold duration_formatter duration_formatter_spec durationComponents renderComponents
  by_cases h1 : num_days d > 0 <;> by_cases h2 : (num_hours d).tmod 24 > 0 <;>
    by_cases h3 : (num_minutes d).tmod 60 > 0 <;>
    by_cases h4 : (num_seconds d).tmod 60 > 0 <;>
    simp [h1, h2, h3, h4, String.append_assoc]

/-! ### C5: negative spans -/

/-- C5 counterexample: at the negative span −3661000 ms the signed remainders
are 0 days, −1 hours, −1 minutes, −1 seconds, but the formatter renders none
of them: it returns the empty string instead of rendering the signed
remainders. -/
theorem c5_negative_span_counterexample :
    (durationComponents (-3661000)).map Prod.fst = [0, -1, -1, -1]
    ∧ duration_formatter (-3661000) = "" := by
  constructor
  · decide
  · decide

/-- C5 amended: for every negative input span every day/hour/minute/second
component computed by truncating (towards-zero) division is nonpositive, so
none passes the strictly-positive rendering check and the formatter returns
the empty string. -/
theorem c5_negative_span_empty (d : Int) (hd : d < 0) :
    duration_formatter d = "" := by
  have h1 : num_days d ≤ 0 := tdiv_nonpos_of_nonpos (by omega) (by omega)
  have hh : num_hours d ≤ 0 := tdiv_nonpos_of_nonpos (by omega) (by omega)
  have hm : num_minutes d ≤ 0 := tdiv_nonpos_of_nonpos (by omega) (by omega)
  have hs : num_seconds d ≤ 0 := tdiv_nonpos_of_nonpos (by omega) (by omega)
  have h2 : (num_hours d).tmod 24 ≤ 0 := tmod_nonpos_of_nonpos hh (by omega)
  have h3 : (num_minutes d).tmod 60 ≤ 0 := tmod_nonpos_of_nonpos hm (by omega)
  have h4 : (num_seconds d).tmod 60 ≤ 0 := tmod_nonpos_of_nonpos hs (by omega)
  unfold duration_formatter
  simp [not_lt.mpr h1, not_lt.mpr h2, not_lt.mpr h3, not_lt.mpr h4]

/-- C5 witness: the amended statement evaluated at the concrete span −5000. -/
theorem c5_negative_span_empty_witness :
    ((-5000 : Int) < 0) ∧ duration_formatter (-5000) = "" :=
  ⟨by decide, c5_negative_span_empty (-5000) (by decide)⟩

/-! ### Reconciler lemmas -/

/-- The reconciler never writes the heartbeat key: its only write is to
`WAKE_UP_TIME_KEY`. -/
lemma report_preserves_heartbeat (connStored connWake connSet : Bool)
    (times : String → Option Int) (now : Int) :
    (report_power_off_time connStored connWake connSet times now).newTimes
      POWER_ON_TIME_KEY = times POWER_ON_TIME_KEY := by
  simp only [report_power_off_time]
  split
  · rfl
  · cases connSet <;>
      simp [redisSet, Except.toOption, POWER_ON_TIME_KEY, WAKE_UP_TIME_KEY]

/-- The computed `time_off` of a reconciliation is `now` minus the heartbeat
read, with a failed read replaced by `now`. -/
lemma report_timeOff_eq (connStored connWake connSet : Bool)
    (times : String → Option Int) (now : Int) :
    (report_power_off_time connStored connWake connSet times now).timeOff
      = now - ((redisGet connStored times POWER_ON_TIME_KEY).toOption.getD now) := by
  simp only [report_power_off_time]
  split <;> rfl

/-- When the computed `time_off` is nonzero and below one minute the
reconciler sends exactly the brief-restart report and leaves the store
untouched. -/
lemma report_brief_branch (connStored connWake connSet : Bool)
    (times : String → Option Int) (now : Int)
    (hne : now - ((redisGet connStored times POWER_ON_TIME_KEY).toOption.getD now) ≠ 0)
    (hlt : now - ((redisGet connStored times POWER_ON_TIME_KEY).toOption.getD now) < minuteMs) :
    (report_power_off_time connStored connWake connSet times now).messages
      = [briefRestartMessage
          (report_power_off_time connStored connWake connSet times now).timeOn]
    ∧ (report_power_off_time connStored connWake connSet times now).newTimes
        = times := by
  simp only [report_power_off_time]
  rw [if_pos ⟨hne, hlt⟩]
  exact ⟨rfl, rfl⟩

/-! ### C1: branch behaviour of the startup reconciliation -/

/-- C1: when the computed `timeOff` is strictly positive and below one minute
the reconciler sends exactly the brief-restart report (which carries only the
power-on duration) and leaves the store untouched; when `timeOff` is zero or
at least one minute it sends the report carrying both durations and overwrites
`WAKE_UP_TIME_KEY` (and nothing else) with the current instant. -/
theorem c1_reconciler_branching (connStored connWake : Bool)
    (times : String → Option Int) (now : Int) (r : ReconcileOutcome)
    (hr : r = report_power_off_time connStored connWake true times now) :
    (0 < r.timeOff ∧ r.timeOff < minuteMs →
      r.messages = [briefRestartMessage r.timeOn] ∧ r.newTimes = times)
    ∧ (r.timeOff = 0 ∨ minuteMs ≤ r.timeOff →
      r.messages = [outageMessage r.timeOff r.timeOn]
      ∧ r.newTimes WAKE_UP_TIME_KEY = some now
      ∧ ∀ k, k ≠ WAKE_UP_TIME_KEY → r.newTimes k = times k) := by
  subst hr
  simp only [report_power_off_time, minuteMs]
  split
  case isTrue h =>
    refine ⟨fun _ => ⟨rfl, rfl⟩, fun hcase => ?_⟩
    simp at hcase
    exfalso
    omega
  case isFalse h =>
    rw [not_and_or, not_ne_iff, not_lt] at h
    refine ⟨fun hcase => ?_, fun _ => ?_⟩
    · simp at hcase
      exfalso
      omega
    · refine ⟨rfl, ?_, fun k hk => ?_⟩
      · simp [redisSet, Except.toOption]
      · simp [redisSet, Except.toOption, hk]

/-- C1 witness: the brief branch at `timeOff = 30000` ms and the update branch
at `timeOff = 100000` ms, each with concrete stores. -/
theorem c1_reconciler_branching_witness :
    ((report_power_off_time true true true
        (fun k => if k = POWER_ON_TIME_KEY then some 70000 else some 0)
        100000).messages
      = [briefRestartMessage
          (report_power_off_time true true true
            (fun k => if k = POWER_ON_TIME_KEY then some 70000 else some 0)
            100000).timeOn]
    ∧ (report_power_off_time true true true
        (fun k => if k = POWER_ON_TIME_KEY then some 70000 else some 0)
        100000).newTimes
      = (fun k => if k = POWER_ON_TIME_KEY then some 70000 else some 0))
    ∧ (report_power_off_time true true true (fun _ => some 0) 100000).messages
      = [outageMessage
          (report_power_off_time true true true (fun _ => some 0) 100000).timeOff
          (report_power_off_time true true true (fun _ => some 0) 100000).timeOn]
    ∧ (report_power_off_time true true true (fun _ => some 0) 100000).newTimes
        WAKE_UP_TIME_KEY = some 100000 :=
  ⟨(c1_reconciler_branching true true
      (fun k => if k = POWER_ON_TIME_KEY then some 70000 else some 0)
      100000 _ rfl).1 (by constructor <;> decide),
   ((c1_reconciler_branching true true (fun _ => some 0) 100000 _ rfl).2
      (Or.inr (by decide))).1,
   (((c1_reconciler_branching true true (fun _ => some 0) 100000 _ rfl).2
      (Or.inr (by decide))).2).1⟩

/-! ### C2: negative timeOff is not treated as zero -/

/-- C2 counterexample: with the heartbeat stored 10 s in the future
(`timeOff = −10000` ms) the reconciler takes the brief-restart branch — it
sends the brief-restart report and leaves `WAKE_UP_TIME_KEY` at its old value
900000 — instead of behaving as in the `timeOff = 0` case, which sends the
two-duration report and overwrites `WAKE_UP_TIME_KEY` with the current
instant 1000000. -/
theorem c2_negative_timeoff_counterexample :
    (report_power_off_time true true true
        (fun k => if k = POWER_ON_TIME_KEY then some 1010000 else some 900000)
        1000000).timeOff = -10000
    ∧ (report_power_off_time true true true
        (fun k => if k = POWER_ON_TIME_KEY then some 1010000 else some 900000)
        1000000).messages
      = [briefRestartMessage
          (report_power_off_time true true true
            (fun k => if k = POWER_ON_TIME_KEY then some 1010000 else some 900000)
            1000000).timeOn]
    ∧ (report_power_off_time true true true
        (fun k => if k = POWER_ON_TIME_KEY then some 1010000 else some 900000)
        1000000).newTimes WAKE_UP_TIME_KEY = some 900000
    ∧ (report_power_off_time true true true
        (fun k => if k = POWER_ON_TIME_KEY then some 1010000 else some 900000)
        1000000).messages
      ≠ [outageMessage (-10000)
          (report_power_off_time true true true
            (fun k => if k = POWER_ON_TIME_KEY then some 1010000 else some 900000)
            1000000).timeOn] := by
  refine ⟨by decide, by decide, by decide, by decide⟩

/-- C2 amended: a negative computed `timeOff` is nonzero and below one minute,
so the reconciler classifies it as a brief restart: it sends the brief-restart
report (carrying only the power-on duration) and does not write
`WAKE_UP_TIME_KEY`; it does not behave as in the `timeOff = 0` case. -/
theorem c2_negative_timeoff_brief (connStored connWake connSet : Bool)
    (times : String → Option Int) (now : Int) (r : ReconcileOutcome)
    (hr : r = report_power_off_time connStored connWake connSet times now)
    (hneg : r.timeOff < 0) :
    r.messages = [briefRestartMessage r.timeOn] ∧ r.newTimes = times := by
  subst hr
  simp only [report_power_off_time, minuteMs] at hneg ⊢
  split
  case isTrue h => exact ⟨rfl, rfl⟩
  case isFalse h =>
    rw [if_neg h] at hneg
    rw [not_and_or, not_ne_iff, not_lt] at h
    simp at hneg
    exfalso
    omega

/-- C2 witness: the amended statement at the store of the counterexample. -/
theorem c2_negative_timeoff_brief_witness :
    (report_power_off_time true true true
        (fun k => if k = POWER_ON_TIME_KEY then some 1010000 else some 900000)
        1000000).messages
      = [briefRestartMessage
          (report_power_off_time true true true
            (fun k => if k = POWER_ON_TIME_KEY then some 1010000 else some 900000)
            1000000).timeOn] :=
  (c2_negative_timeoff_brief true true true
    (fun k => if k = POWER_ON_TIME_KEY then some 1010000 else some 900000)
    1000000 _ rfl (by decide)).1

/-! ### C3: the reconciliation arithmetic -/

/-- C3: the reconciler computes `timeOff = now − stored` and
`timeOn = (now − wakeUp) − timeOff`, where `stored` and `wakeUp` are the store
reads with any absent or unreadable value replaced by the current instant, and
on a first-ever run (both keys absent) `timeOff` is zero. -/
theorem c3_reconciler_arithmetic (connStored connWake connSet : Bool)
    (times : String → Option Int) (now : Int) :
    (report_power_off_time connStored connWake connSet times now).timeOff
      = now - ((redisGet connStored times POWER_ON_TIME_KEY).toOption.getD now)
    ∧ (report_power_off_time connStored connWake connSet times now).timeOn
      = (now - ((redisGet connWake times WAKE_UP_TIME_KEY).toOption.getD now))
        - (report_power_off_time connStored connWake connSet times now).timeOff
    ∧ (∀ m : Int,
        (report_power_off_time connStored connWake connSet (fun _ => none) m).timeOff
          = 0) := by
  refine ⟨?_, ?_, fun m => ?_⟩
  · simp only [report_power_off_time]
    split <;> rfl
  · simp only [report_power_off_time]
    split <;> rfl
  · simp only [report_power_off_time, redisGet]
    cases connStored <;> simp [Except.toOption]

/-! ### C6: fail-closed approval check -/

/-- C6 counterexample: with the store unreachable, `verify_approval` does not
return false — it returns an error (which the status handler then
propagates). -/
theorem c6_fail_closed_counterexample :
    verify_approval false (fun _ => none) 1 = Except.error ()
    ∧ verify_approval false (fun _ => none) 1 ≠ Except.ok false := by
  refine ⟨rfl, ?_⟩
  simp [verify_approval]

/-- C6 amended: when the store is unreachable `verify_approval` returns an
error for every user — in particular never true — and the status handler
propagates that error without sending any reply, so an unreadable approval
flag is never treated as permission. -/
theorem c6_fail_closed_error (flags : Nat → Option String) (u : Nat)
    (connWake : Bool) (times : String → Option Int) (adminId user : Nat)
    (now msgTime : Int) :
    verify_approval false flags u = Except.error ()
    ∧ handler false connWake flags times adminId user now msgTime
        = Except.error () :=
  ⟨rfl, rfl⟩

/-! ### C7: the approval state machine -/

/-- C7: with a reachable store, a user with no flag is not approved; after
`approve_user` the user is approved; after a subsequent `disapprove_user` the
flag is exactly "disapproved" and the user is not approved; and neither call
changes the flag, or the approval verdict, of any other user id. -/
theorem c7_authorization_gate (flags : Nat → Option String) (u v : Nat)
    (flags1 flags2 : Nat → Option String)
    (hfresh : flags u = none)
    (h1 : approve_user true flags u = Except.ok flags1)
    (h2 : disapprove_user true flags1 u = Except.ok flags2)
    (hv : v ≠ u) :
    verify_approval true flags u = Except.ok false
    ∧ verify_approval true flags1 u = Except.ok true
    ∧ verify_approval true flags2 u = Except.ok false
    ∧ flags2 u = some "disapproved"
    ∧ flags1 v = flags v
    ∧ flags2 v = flags1 v
    ∧ verify_approval true flags1 v = verify_approval true flags v
    ∧ verify_approval true flags2 v = verify_approval true flags v := by
  simp only [approve_user, disapprove_user, manage_user, if_pos,
    Except.ok.injEq] at h1 h2
  subst h1
  subst h2
  refine ⟨?_, ?_, ?_, ?_, ?_, ?_, ?_, ?_⟩ <;>
    simp [verify_approval, hfresh, hv]

/-- C7 witness: the state machine run concretely for user 1, observed also at
the unrelated user 2. -/
theorem c7_authorization_gate_witness :
    verify_approval true (fun _ => none) 1 = Except.ok false
    ∧ verify_approval true
        (fun v => if v = 1 then some "approved" else (fun _ => none) v) 1
        = Except.ok true
    ∧ verify_approval true
        (fun w => if w = 1 then some "disapproved"
          else (fun v => if v = 1 then some "approved" else (fun _ => none) v) w) 1
        = Except.ok false
    ∧ (fun w => if w = 1 then some "disapproved"
        else (fun v => if v = 1 then some "approved" else (fun _ => none) v) w) 1
        = some "disapproved"
    ∧ (fun v => if v = 1 then some "approved" else (fun _ => none) v) 2
        = (fun _ => (none : Option String)) 2
    ∧ (fun w => if w = 1 then some "disapproved"
        else (fun v => if v = 1 then some "approved" else (fun _ => none) v) w) 2
        = (fun v => if v = 1 then some "approved" else (fun _ => none) v) 2 := by
  have h := c7_authorization_gate (fun _ => none) 1 2
    (fun v => if v = 1 then some "approved" else (fun _ => none) v)
    (fun w => if w = 1 then some "disapproved"
      else (fun v => if v = 1 then some "approved" else (fun _ => none) v) w)
    rfl rfl rfl (by decide)
  exact ⟨h.1, h.2.1, h.2.2.1, h.2.2.2.1, h.2.2.2.2.1, h.2.2.2.2.2.1⟩

/-! ### C8: the status query -/

/-- C8: for an authorized sender, a status message more than one minute older
than the current instant is dropped with no reply; otherwise any reply that is
sent reports the span from the `WAKE_UP_TIME_KEY` value read from the store at
query time (with a failed read replaced by `now`) up to `now`. -/
theorem c8_status_query (connWake : Bool) (flags : Nat → Option String)
    (times : String → Option Int) (adminId user : Nat) (now msgTime : Int)
    (hauth : verify_approval true flags user = Except.ok true ∨ user = adminId) :
    (now - msgTime > minuteMs →
      handler true connWake flags times adminId user now msgTime
        = Except.ok none)
    ∧ (now - msgTime ≤ minuteMs →
      ∀ text,
        handler true connWake flags times adminId user now msgTime
          = Except.ok (some text) →
        text = "Light is on for "
          ++ duration_formatter
              (now - ((redisGet connWake times WAKE_UP_TIME_KEY).toOption.getD now))) := by
  have hskip : ¬((flags user == some "approved") = false ∧ user ≠ adminId) := by
    rcases hauth with hap | had
    · simp only [verify_approval, if_pos, Except.ok.injEq] at hap
      simp [hap]
    · simp [had]
  constructor
  · intro hstale
    simp only [handler, verify_approval, if_true]
    rw [if_neg hskip, if_pos hstale]
  · intro hfresh text heq
    simp only [handler, verify_approval, if_true] at heq
    rw [if_neg hskip, if_neg (not_lt.mpr hfresh)] at heq
    set toff := now - ((redisGet connWake times WAKE_UP_TIME_KEY).toOption.getD now)
      with htoff
    by_cases hz : toff = 0
    · rw [if_pos hz] at heq
      exact absurd heq (by simp)
    · rw [if_neg hz] at heq
      simp only [Except.ok.injEq, Option.some.injEq] at heq
      exact heq.symm

/-- C8 witness: the stale branch at a message 100 s old and the fresh branch
at a message 30 s old, over a store whose wake-up instant is 60 s ago. -/
theorem c8_status_query_witness :
    handler true true (fun _ => some "approved") (fun _ => some 40000)
        7 5 100000 0 = Except.ok none
    ∧ ("Light is on for " ++ duration_formatter 60000
        = "Light is on for "
          ++ duration_formatter
              (100000 - ((redisGet true (fun _ => some 40000) WAKE_UP_TIME_KEY).toOption.getD 100000))) :=
  ⟨(c8_status_query true (fun _ => some "approved") (fun _ => some 40000)
      7 5 100000 0 (Or.inl rfl)).1 (by decide),
   (c8_status_query true (fun _ => some "approved") (fun _ => some 40000)
      7 5 100000 70000 (Or.inl rfl)).2 (by decide)
      ("Light is on for " ++ duration_formatter 60000) rfl⟩

/-! ### C9: two reconciliations in immediate succession -/

/-- C9 counterexample: heartbeat and wake-up both stored at instant 0, first
reconciliation at 300000 ms (a five-minute outage), second at 301000 ms, with
no heartbeat write in between: the second run computes `timeOff = 301000` ms —
not approximately zero — and sends the genuine-outage report, not the
brief-restart one. -/
theorem c9_idempotence_counterexample :
    (reconcileTwice (fun _ => some 0) 300000 301000).timeOff = 301000
    ∧ ¬((reconcileTwice (fun _ => some 0) 300000 301000).timeOff < minuteMs)
    ∧ (reconcileTwice (fun _ => some 0) 300000 301000).messages
      = [outageMessage 301000
          (reconcileTwice (fun _ => some 0) 300000 301000).timeOn]
    ∧ (reconcileTwice (fun _ => some 0) 300000 301000).messages
      ≠ [briefRestartMessage
          (reconcileTwice (fun _ => some 0) 300000 301000).timeOn] := by
  refine ⟨by decide, by decide, by decide, by decide⟩

/-- C9 amended: the reconciler never writes the heartbeat key, so the second
of two reconciliations with no intervening heartbeat write computes
`timeOff = now₂ − stored`, i.e. the first run's `timeOff` plus the time
elapsed between the runs; the second run is brief-restart-phrased exactly when
that value is strictly positive and below one minute — as on a store whose
heartbeat is approximately the instant of the first run, not in general. -/
theorem c9_second_run_timeoff (times : String → Option Int)
    (now1 now2 h : Int) (hstored : times POWER_ON_TIME_KEY = some h) :
    (reconcileTwice times now1 now2).timeOff = now2 - h
    ∧ (0 < now2 - h ∧ now2 - h < minuteMs →
        (reconcileTwice times now1 now2).messages
          = [briefRestartMessage (reconcileTwice times now1 now2).timeOn]) := by
  have hpre : (report_power_off_time true true true times now1).newTimes
      POWER_ON_TIME_KEY = some h := by
    rw [report_preserves_heartbeat, hstored]
  have hread : (redisGet true
      (report_power_off_time true true true times now1).newTimes
      POWER_ON_TIME_KEY).toOption.getD now2 = h := by
    rw [redisGet, if_pos rfl, hpre]
    rfl
  have hoff : (reconcileTwice times now1 now2).timeOff = now2 - h := by
    rw [reconcileTwice, report_timeOff_eq, hread]
  refine ⟨hoff, fun hcase => ?_⟩
  rw [reconcileTwice]
  refine (report_brief_branch true true true _ now2 ?_ ?_).1
  · rw [hread]
    omega
  · rw [hread]
    exact hcase.2

/-- C9 witness: heartbeat at instant 0, runs at 10000 ms and 30000 ms. -/
theorem c9_second_run_timeoff_witness :
    (reconcileTwice (fun _ => some 0) 10000 30000).timeOff = 30000 - 0
    ∧ (reconcileTwice (fun _ => some 0) 10000 30000).messages
      = [briefRestartMessage (reconcileTwice (fun _ => some 0) 10000 30000).timeOn] :=
  ⟨(c9_second_run_timeoff (fun _ => some 0) 10000 30000 0 rfl).1,
   (c9_second_run_timeoff (fun _ => some 0) 10000 30000 0 rfl).2 (by decide)⟩

/-! ### C10: store read failure during a status query -/

/-- C10: for an authorized, non-stale status query whose `WAKE_UP_TIME_KEY`
read fails, the handler substitutes the current instant, the computed span is
zero, and the handler returns `Ok` with no reply — neither an error nor a
status string. -/
theorem c10_read_failure_silence (connWake : Bool)
    (flags : Nat → Option String) (times : String → Option Int)
    (adminId user : Nat) (now msgTime : Int)
    (hauth : verify_approval true flags user = Except.ok true ∨ user = adminId)
    (hfresh : now - msgTime ≤ minuteMs)
    (hfail : redisGet connWake times WAKE_UP_TIME_KEY = Except.error ()) :
    ((redisGet connWake times WAKE_UP_TIME_KEY).toOption.getD now = now)
    ∧ now - ((redisGet connWake times WAKE_UP_TIME_KEY).toOption.getD now) = 0
    ∧ handler true connWake flags times adminId user now msgTime
        = Except.ok none := by
  have hsub : (redisGet connWake times WAKE_UP_TIME_KEY).toOption.getD now
      = now := by
    rw [hfail]
    rfl
  have hskip : ¬((flags user == some "approved") = false ∧ user ≠ adminId) := by
    rcases hauth with hap | had
    · simp only [verify_approval, if_pos, Except.ok.injEq] at hap
      simp [hap]
    · simp [had]
  refine ⟨hsub, by rw [hsub]; ring, ?_⟩
  simp only [handler, verify_approval, if_true]
  rw [if_neg hskip, if_neg (not_lt.mpr hfresh), hsub]
  simp

/-- C10 witness: an approved user querying with a 30 s old message while the
wake-up read's connection is down. -/
theorem c10_read_failure_silence_witness :
    ((redisGet false (fun _ => some 40000) WAKE_UP_TIME_KEY).toOption.getD 100000
      = 100000)
    ∧ handler true false (fun _ => some "approved") (fun _ => some 40000)
        7 5 100000 70000 = Except.ok none :=
  ⟨(c10_read_failure_silence false (fun _ => some "approved")
      (fun _ => some 40000) 7 5 100000 70000 (Or.inl rfl) (by decide) rfl).1,
   (c10_read_failure_silence false (fun _ => some "approved")
      (fun _ => some 40000) 7 5 100000 70000 (Or.inl rfl) (by decide) rfl).2.2⟩

end LightWatcher
